import Mathlib

set_option maxRecDepth 16384
set_option maxHeartbeats 2000000

/-
Shallow embedding of src/main.py (SuperMalinge/Mainboard-Components-TF).

The Python file defines `MainboardComponent` (a record of a component type
label, a heterogeneous specs dict, a location, connections, telemetry fields
and a status) and `Mainboard`, whose `initialize_components` populates
singleton component attributes, fixed-size lists of components, and two
dict-valued groups (`rgb_headers`, `pcie_slots`) from literal spec tables.
Query methods `get_all_components` / `verify_all_components` and the
telemetry methods `monitor_temperatures` / `manage_power_delivery` /
`run_diagnostics` / `call` are embedded below.

Modelling conventions:
- Python object identity is modelled by a `uid` field assigned in source
  allocation order (each `MainboardComponent(...)` call creates a distinct
  object; uids 0..44 follow the textual order of `initialize_components`).
- The heterogeneous specs dict is an association list over `SpecValue`
  (string / nat / bool / list-of-strings cover every literal in the file).
- `dir(self)` iteration in `get_all_components` is modelled by an explicit
  alphabetically sorted attribute list restricted to the attributes this
  class itself defines (fields and methods); the TensorFlow base-class
  attributes are not modelled, in line with the spec, which calls the
  framework base classes incidental containers with no behavioral meaning.
- Calling a method that the class never defines (get_cpu_temp, get_vrm_temp,
  get_m2_temp, get_chipset_temp, calculate_total_power,
  calculate_power_efficiency) raises AttributeError in Python; this is
  embedded as `Except.error (.attributeError name)`.
-/

namespace MainboardTF

/-- A value stored in a component's specs dict: every literal appearing in
the spec tables of src/main.py is a string, a number, a boolean, or a list
of strings. -/
inductive SpecValue where
  | str (s : String)
  | nat (n : Nat)
  | bool (b : Bool)
  | strList (l : List String)
deriving DecidableEq

/-- `MainboardComponent.__init__` (src/main.py lines 4-13): stores the
component type, specs and location, and initializes connections to empty,
temperature and power_draw to 0, status to "operational". `uid` models
Python object identity (allocation order). -/
structure MainboardComponent where
  uid : Nat
  component_type : String
  specs : List (String × SpecValue)
  location : Option String
  connections : List Nat
  temperature : Nat
  power_draw : Nat
  status : String
deriving DecidableEq

/-- `MainboardComponent(component_type, specs)` with the default
`location=None`: the only construction form used in src/main.py. -/
def mkComponent (uid : Nat) (component_type : String)
    (specs : List (String × SpecValue)) : MainboardComponent :=
  ⟨uid, component_type, specs, none, [], 0, 0, "operational"⟩

/-- Spec table of `cpu_socket` (src/main.py lines 23-29). -/
def cpuSocketSpecs : List (String × SpecValue) :=
  [("type", .str "LGA1700"), ("pins", .nat 1700),
   ("supported_cpus", .strList ["12th Gen Intel", "13th Gen Intel", "14th Gen Intel"]),
   ("max_tdp", .nat 253), ("overclocking", .bool true)]

/-- Spec table of `chipset` (lines 31-35). -/
def chipsetSpecs : List (String × SpecValue) :=
  [("model", .str "Z790"),
   ("features", .strList ["PCIe 5.0", "DDR5 Support", "WiFi 6E", "Thunderbolt 4"]),
   ("max_memory_speed", .nat 7800)]

/-- Spec table of each `memory_slots` entry (lines 38-46). -/
def ramSlotSpecs : List (String × SpecValue) :=
  [("type", .str "DDR5"), ("max_speed", .nat 7800),
   ("channels", .str "Dual-Channel"), ("xmp_support", .bool true),
   ("ecc_support", .bool true)]

/-- Spec table of each `m2_slots` entry (lines 49-56). -/
def m2SlotSpecs : List (String × SpecValue) :=
  [("interface", .str "PCIe 5.0 x4"),
   ("form_factors", .strList ["2280", "2260", "2242", "22110"]),
   ("cooling", .str "Heatsink included"), ("max_speed", .str "128 Gb/s")]

/-- Spec table of each `sata_ports` entry (lines 58-64). -/
def sataPortSpecs : List (String × SpecValue) :=
  [("version", .str "SATA III"), ("speed", .str "6 Gb/s"),
   ("raid_support", .strList ["0", "1", "5", "10"])]

/-- Spec table of `vrm` (lines 67-73). -/
def vrmSpecs : List (String × SpecValue) :=
  [("phases", .str "20+1+2"), ("mosfets", .str "DrMOS 90A"),
   ("controller", .str "Digitally Controlled"),
   ("cooling", .str "Extended Heatsink"),
   ("monitoring", .str "Real-time current and temperature")]

/-- Spec table of each `fan_headers` entry (lines 76-83). -/
def fanHeaderSpecs : List (String × SpecValue) :=
  [("type", .str "PWM"), ("max_current", .str "2A"),
   ("smart_control", .bool true), ("hybrid_mode", .bool true)]

/-- Spec table of each `pump_headers` entry (lines 85-91). -/
def pumpHeaderSpecs : List (String × SpecValue) :=
  [("type", .str "AIO/Custom Loop"), ("max_current", .str "3A"),
   ("smart_control", .bool true)]

/-- Spec table of each addressable RGB header (lines 95-100). -/
def argbHeaderSpecs : List (String × SpecValue) :=
  [("pins", .nat 3), ("voltage", .str "5V"), ("max_current", .str "3A"),
   ("led_count", .nat 300)]

/-- Spec table of each traditional RGB header (lines 101-105). -/
def rgbHeaderSpecs : List (String × SpecValue) :=
  [("pins", .nat 4), ("voltage", .str "12V"), ("max_current", .str "3A")]

/-- Spec table of `debug_features` (lines 109-115). -/
def debugFeaturesSpecs : List (String × SpecValue) :=
  [("post_code", .str "LED Display"), ("voltage_monitoring", .bool true),
   ("temperature_sensors", .nat 10), ("fan_monitoring", .bool true),
   ("error_logging", .bool true)]

/-- Spec table of `bios_system` (lines 118-125). -/
def biosSystemSpecs : List (String × SpecValue) :=
  [("type", .str "UEFI"), ("size", .str "256Mb"), ("dual_bios", .bool true),
   ("flashback", .bool true), ("secure_boot", .bool true),
   ("tpm_support", .str "2.0")]

/-- Spec table of `audio_system` (lines 128-134). -/
def audioSystemSpecs : List (String × SpecValue) :=
  [("codec", .str "Realtek ALC4082"), ("dac", .str "ESS SABRE9018Q2C"),
   ("snr", .str "130dB"), ("amplifier", .str "Texas Instruments"),
   ("isolation", .str "EMI Shielding")]

/-- Spec table of `network` (lines 137-142). -/
def networkSpecs : List (String × SpecValue) :=
  [("ethernet_1", .str "10 GbE"), ("ethernet_2", .str "2.5 GbE"),
   ("wifi", .str "WiFi 6E"), ("bluetooth", .str "5.3")]

/-- Spec table of each `thunderbolt` entry (lines 145-151). -/
def thunderboltSpecs : List (String × SpecValue) :=
  [("speed", .str "40 Gbps"), ("power_delivery", .str "100W"),
   ("display_support", .str "8K@60Hz")]

/-- Spec table of each PCIe x16 slot (lines 155-160). -/
def pcieX16Specs : List (String × SpecValue) :=
  [("version", .str "PCIe 5.0"), ("lanes", .nat 16),
   ("reinforced", .bool true), ("bifurcation", .str "x8/x8 capable")]

/-- Spec table of the PCIe x4 slot (lines 161-164). -/
def pcieX4Specs : List (String × SpecValue) :=
  [("version", .str "PCIe 4.0"), ("lanes", .nat 4)]

/-- Spec table of each PCIe x1 slot (lines 165-168). -/
def pcieX1Specs : List (String × SpecValue) :=
  [("version", .str "PCIe 3.0"), ("lanes", .nat 1)]

/-- `Mainboard` instance attributes after `__init__` (lines 15-169):
`form_factor` plus every attribute `initialize_components` assigns.
`rgb_headers` and `pcie_slots` are Python dicts mapping group names to
lists of components; they are kept as association lists here. -/
structure Mainboard where
  form_factor : String
  cpu_socket : MainboardComponent
  chipset : MainboardComponent
  memory_slots : List MainboardComponent
  m2_slots : List MainboardComponent
  sata_ports : List MainboardComponent
  vrm : MainboardComponent
  fan_headers : List MainboardComponent
  pump_headers : List MainboardComponent
  rgb_headers : List (String × List MainboardComponent)
  debug_features : MainboardComponent
  bios_system : MainboardComponent
  audio_system : MainboardComponent
  network : MainboardComponent
  thunderbolt : List MainboardComponent
  pcie_slots : List (String × List MainboardComponent)
deriving DecidableEq

/-- `Mainboard(form_factor)` followed by `initialize_components` (lines
16-169): every group is built from its literal spec table; uids follow the
textual allocation order of the Python constructor calls. The
`form_factor` argument is stored but never read by the initializer. -/
def Mainboard.mk_board (form_factor : String) : Mainboard :=
  ⟨form_factor,
   mkComponent 0 "CPU Socket" cpuSocketSpecs,
   mkComponent 1 "Chipset" chipsetSpecs,
   (List.range 4).map (fun i => mkComponent (2 + i) "RAM Slot" ramSlotSpecs),
   (List.range 4).map (fun i => mkComponent (6 + i) "M.2 Slot" m2SlotSpecs),
   (List.range 8).map (fun i => mkComponent (10 + i) "SATA Port" sataPortSpecs),
   mkComponent 18 "VRM" vrmSpecs,
   (List.range 8).map (fun i => mkComponent (19 + i) "Fan Header" fanHeaderSpecs),
   (List.range 2).map (fun i => mkComponent (27 + i) "Pump Header" pumpHeaderSpecs),
   [("addressable", (List.range 3).map (fun i => mkComponent (29 + i) "ARGB Header" argbHeaderSpecs)),
    ("traditional", (List.range 2).map (fun i => mkComponent (32 + i) "RGB Header" rgbHeaderSpecs))],
   mkComponent 34 "Debug System" debugFeaturesSpecs,
   mkComponent 35 "BIOS" biosSystemSpecs,
   mkComponent 36 "Audio" audioSystemSpecs,
   mkComponent 37 "Network" networkSpecs,
   (List.range 2).map (fun i => mkComponent (38 + i) "Thunderbolt 4" thunderboltSpecs),
   [("x16", (List.range 2).map (fun i => mkComponent (40 + i) "PCIe x16" pcieX16Specs)),
    ("x4", [mkComponent 42 "PCIe x4" pcieX4Specs]),
    ("x1", (List.range 2).map (fun i => mkComponent (43 + i) "PCIe x1" pcieX1Specs))]⟩

/-- The value of one attribute of a `Mainboard` object, as seen by the
`isinstance` tests in `get_all_components` (lines 200-208): a single
component, a list of components, a dict of component lists, the
form-factor string, or a bound method. -/
inductive AttrValue where
  | comp (c : MainboardComponent)
  | compList (cs : List MainboardComponent)
  | compDict (d : List (String × List MainboardComponent))
  | strAttr (s : String)
  | methodAttr

/-- The attributes the Mainboard class itself defines, in the sorted order
Python's `dir(self)` yields (line 202): alphabetical by attribute name.
Methods appear as `methodAttr`; the two dict-valued attributes appear as
`compDict`. -/
def Mainboard.dirAttrs (m : Mainboard) : List (String × AttrValue) :=
  [("audio_system", .comp m.audio_system),
   ("bios_system", .comp m.bios_system),
   ("call", .methodAttr),
   ("chipset", .comp m.chipset),
   ("cpu_socket", .comp m.cpu_socket),
   ("debug_features", .comp m.debug_features),
   ("fan_headers", .compList m.fan_headers),
   ("form_factor", .strAttr m.form_factor),
   ("get_all_components", .methodAttr),
   ("initialize_components", .methodAttr),
   ("m2_slots", .compList m.m2_slots),
   ("manage_power_delivery", .methodAttr),
   ("memory_slots", .compList m.memory_slots),
   ("monitor_temperatures", .methodAttr),
   ("network", .comp m.network),
   ("pcie_slots", .compDict m.pcie_slots),
   ("pump_headers", .compList m.pump_headers),
   ("rgb_headers", .compDict m.rgb_headers),
   ("run_diagnostics", .methodAttr),
   ("sata_ports", .compList m.sata_ports),
   ("thunderbolt", .compList m.thunderbolt),
   ("verify_all_components", .methodAttr),
   ("vrm", .comp m.vrm)]

/-- The body of the loop in `get_all_components` (lines 203-207): a
component attribute is appended; a list attribute is extended only when it
is non-empty and its head is a component (every Mainboard list attribute
holds components, so the head test is the non-emptiness test); everything
else — including the two dicts — is skipped. -/
def collectFromAttr : AttrValue → List MainboardComponent
  | .comp c => [c]
  | .compList cs => if cs.isEmpty then [] else cs
  | _ => []

/-- `get_all_components` (lines 200-208): fold over `dir(self)` appending
or extending the accumulator. -/
def Mainboard.get_all_components (m : Mainboard) : List MainboardComponent :=
  m.dirAttrs.foldl (fun acc a => acc ++ collectFromAttr a.2) []

/-- Insertion into a Python dict: an existing key keeps its position and
has its value overwritten; a new key is appended. -/
def dictInsert (d : List (String × String)) (k v : String) :
    List (String × String) :=
  if d.any (fun p => p.1 == k) then
    d.map (fun p => if p.1 == k then (k, v) else p)
  else d ++ [(k, v)]

/-- Python dict lookup `d[k]` restricted to its successful value. -/
def assocLookup (d : List (String × String)) (k : String) : Option String :=
  (d.find? (fun p => p.1 == k)).map Prod.snd

/-- `verify_all_components` (lines 196-198): the dict comprehension
`{component.component_type: component.status for component in
self.get_all_components()}` — later entries overwrite earlier ones. -/
def Mainboard.verify_all_components (m : Mainboard) : List (String × String) :=
  m.get_all_components.foldl
    (fun d c => dictInsert d c.component_type c.status) []

/-- Every component `initialize_components` creates, in construction order,
the dict-valued groups included: the full set the registry owns. -/
def Mainboard.all_owned (m : Mainboard) : List MainboardComponent :=
  [m.cpu_socket, m.chipset] ++ m.memory_slots ++ m.m2_slots ++ m.sata_ports
    ++ [m.vrm] ++ m.fan_headers ++ m.pump_headers
    ++ (m.rgb_headers.map Prod.snd).flatten
    ++ [m.debug_features, m.bios_system, m.audio_system, m.network]
    ++ m.thunderbolt ++ (m.pcie_slots.map Prod.snd).flatten

/-- A Python runtime error raised while running a Mainboard method:
`AttributeError` for a method the class never defines, `KeyError` for a
missing dict key. -/
inductive PyError where
  | attributeError (name : String)
  | keyError (key : String)
deriving DecidableEq

/-- `self.get_cpu_temp()` (line 173): the class never defines this method,
so Python raises AttributeError at the lookup. -/
def Mainboard.get_cpu_temp (_m : Mainboard) : Except PyError Nat :=
  .error (.attributeError "get_cpu_temp")

/-- `self.get_vrm_temp()` (line 174): undefined method, AttributeError. -/
def Mainboard.get_vrm_temp (_m : Mainboard) : Except PyError Nat :=
  .error (.attributeError "get_vrm_temp")

/-- `self.get_m2_temp(i)` (line 175): undefined method, AttributeError. -/
def Mainboard.get_m2_temp (_m : Mainboard) (_i : Nat) : Except PyError Nat :=
  .error (.attributeError "get_m2_temp")

/-- `self.get_chipset_temp()` (line 176): undefined method,
AttributeError. -/
def Mainboard.get_chipset_temp (_m : Mainboard) : Except PyError Nat :=
  .error (.attributeError "get_chipset_temp")

/-- `self.calculate_total_power()` (line 183): undefined method,
AttributeError. -/
def Mainboard.calculate_total_power (_m : Mainboard) : Except PyError Nat :=
  .error (.attributeError "calculate_total_power")

/-- `self.calculate_power_efficiency()` (line 184): undefined method,
AttributeError. -/
def Mainboard.calculate_power_efficiency (_m : Mainboard) :
    Except PyError Nat :=
  .error (.attributeError "calculate_power_efficiency")

/-- The dict `monitor_temperatures` would return (lines 171-178). -/
structure TempStatus where
  cpu : Nat
  vrm : Nat
  m2_slots : List Nat
  chipset : Nat
deriving DecidableEq

/-- `monitor_temperatures` (lines 171-178): the dict literal evaluates its
values in order, so the first undefined data source aborts the call. -/
def Mainboard.monitor_temperatures (m : Mainboard) : Except PyError TempStatus := do
  let cpu ← m.get_cpu_temp
  let vrm ← m.get_vrm_temp
  let m2 ← (List.range m.m2_slots.length).mapM m.get_m2_temp
  let chipset ← m.get_chipset_temp
  pure ⟨cpu, vrm, m2, chipset⟩

/-- The dict `manage_power_delivery` would return (lines 180-186). -/
structure PowerStatus where
  cpu_power : Nat
  total_system_power : Nat
  efficiency : Nat
deriving DecidableEq

/-- `manage_power_delivery` (lines 180-186): `self.vrm.power_draw` reads a
field, then the two undefined calculators abort the call. -/
def Mainboard.manage_power_delivery (m : Mainboard) : Except PyError PowerStatus := do
  let cpu_power := m.vrm.power_draw
  let total ← m.calculate_total_power
  let eff ← m.calculate_power_efficiency
  pure ⟨cpu_power, total, eff⟩

/-- Python dict subscription `specs[key]`: KeyError when absent. -/
def specSubscript (specs : List (String × SpecValue)) (key : String) :
    Except PyError SpecValue :=
  match specs.find? (fun p => p.1 == key) with
  | some p => .ok p.2
  | none => .error (.keyError key)

/-- The dict `run_diagnostics` would return (lines 188-194). -/
structure Diagnostics where
  post_code : SpecValue
  component_status : List (String × String)
  temperature_status : TempStatus
  power_status : PowerStatus
deriving DecidableEq

/-- `run_diagnostics` (lines 188-194): dict values evaluate in order —
the post-code spec lookup and `verify_all_components` succeed, then
`monitor_temperatures` aborts with the missing data source. -/
def Mainboard.run_diagnostics (m : Mainboard) : Except PyError Diagnostics := do
  let pc ← specSubscript m.debug_features.specs "post_code"
  let cs := m.verify_all_components
  let ts ← m.monitor_temperatures
  let ps ← m.manage_power_delivery
  pure ⟨pc, cs, ts, ps⟩

/-- `call` (lines 210-212): ignores its `inputs` argument and returns
`run_diagnostics()`. -/
def Mainboard.call {α : Type} (m : Mainboard) (_inputs : α) :
    Except PyError Diagnostics :=
  m.run_diagnostics

/-- State-passing form of `get_all_components`: the method only reads the
object, so it is a `StateM` computation over the Mainboard. -/
def Mainboard.get_all_components_run : StateM Mainboard (List MainboardComponent) := do
  let m ← get
  pure m.get_all_components

/-- State-passing form of `verify_all_components`. -/
def Mainboard.verify_all_components_run : StateM Mainboard (List (String × String)) := do
  let m ← get
  pure m.verify_all_components

/-- The component-bearing fields of a Mainboard, bundled: everything the
constructor populates except the form_factor label. -/
def Mainboard.topology (m : Mainboard) :
    MainboardComponent × MainboardComponent × List MainboardComponent
    × List MainboardComponent × List MainboardComponent × MainboardComponent
    × List MainboardComponent × List MainboardComponent
    × List (String × List MainboardComponent) × MainboardComponent
    × MainboardComponent × MainboardComponent × MainboardComponent
    × List MainboardComponent × List (String × List MainboardComponent) :=
  (m.cpu_socket, m.chipset, m.memory_slots, m.m2_slots, m.sata_ports, m.vrm,
   m.fan_headers, m.pump_headers, m.rgb_headers, m.debug_features,
   m.bios_system, m.audio_system, m.network, m.thunderbolt, m.pcie_slots)

/-- C1 counterexample: `get_all_components` does NOT visit every component
the registry owns — the components stored in the dict-valued groups
(`rgb_headers`, `pcie_slots`) fail both `isinstance` tests in the loop and
are skipped, so on the board built with form factor "ATX" some owned
component never appears in the result. -/
theorem get_all_components_misses_dict_groups :
    ¬ (∀ c ∈ (Mainboard.mk_board "ATX").all_owned,
        c ∈ (Mainboard.mk_board "ATX").get_all_components) := by decide

/-- C1 (amended): for every form factor, `get_all_components` returns
exactly the components of the singleton fields and the flat list fields,
each exactly once (the uids of the result are pairwise distinct), in
`dir` order; every component stored in the dict groups `rgb_headers` and
`pcie_slots` is absent from the result. -/
theorem get_all_components_flat_fields_exactly_once (f : String) :
    ((Mainboard.mk_board f).get_all_components =
      [(Mainboard.mk_board f).audio_system, (Mainboard.mk_board f).bios_system,
       (Mainboard.mk_board f).chipset, (Mainboard.mk_board f).cpu_socket,
       (Mainboard.mk_board f).debug_features]
      ++ (Mainboard.mk_board f).fan_headers ++ (Mainboard.mk_board f).m2_slots
      ++ (Mainboard.mk_board f).memory_slots ++ [(Mainboard.mk_board f).network]
      ++ (Mainboard.mk_board f).pump_headers ++ (Mainboard.mk_board f).sata_ports
      ++ (Mainboard.mk_board f).thunderbolt ++ [(Mainboard.mk_board f).vrm])
    ∧ ((Mainboard.mk_board f).get_all_components.map MainboardComponent.uid).Nodup
    ∧ (∀ c ∈ ((Mainboard.mk_board f).rgb_headers.map Prod.snd).flatten
          ++ ((Mainboard.mk_board f).pcie_slots.map Prod.snd).flatten,
        c ∉ (Mainboard.mk_board f).get_all_components) := by
  have hg : (Mainboard.mk_board f).get_all_components
      = (Mainboard.mk_board "A").get_all_components := rfl
  have h01 : (Mainboard.mk_board f).audio_system
      = (Mainboard.mk_board "A").audio_system := rfl
  have h02 : (Mainboard.mk_board f).bios_system
      = (Mainboard.mk_board "A").bios_system := rfl
  have h03 : (Mainboard.mk_board f).chipset
      = (Mainboard.mk_board "A").chipset := rfl
  have h04 : (Mainboard.mk_board f).cpu_socket
      = (Mainboard.mk_board "A").cpu_socket := rfl
  have h05 : (Mainboard.mk_board f).debug_features
      = (Mainboard.mk_board "A").debug_features := rfl
  have h06 : (Mainboard.mk_board f).fan_headers
      = (Mainboard.mk_board "A").fan_headers := rfl
  have h07 : (Mainboard.mk_board f).m2_slots
      = (Mainboard.mk_board "A").m2_slots := rfl
  have h08 : (Mainboard.mk_board f).memory_slots
      = (Mainboard.mk_board "A").memory_slots := rfl
  have h09 : (Mainboard.mk_board f).network
      = (Mainboard.mk_board "A").network := rfl
  have h10 : (Mainboard.mk_board f).pump_headers
      = (Mainboard.mk_board "A").pump_headers := rfl
  have h11 : (Mainboard.mk_board f).sata_ports
      = (Mainboard.mk_board "A").sata_ports := rfl
  have h12 : (Mainboard.mk_board f).thunderbolt
      = (Mainboard.mk_board "A").thunderbolt := rfl
  have h13 : (Mainboard.mk_board f).vrm
      = (Mainboard.mk_board "A").vrm := rfl
  have h14 : (Mainboard.mk_board f).rgb_headers
      = (Mainboard.mk_board "A").rgb_headers := rfl
  have h15 : (Mainboard.mk_board f).pcie_slots
      = (Mainboard.mk_board "A").pcie_slots := rfl
  rw [hg, h01, h02, h03, h04, h05, h06, h07, h08, h09, h10, h11, h12, h13,
    h14, h15]
  decide

/-- C2 counterexample: on the board built with form factor "ATX",
`get_all_components` does not return 41 components. -/
theorem get_all_components_length_ne_41 :
    (Mainboard.mk_board "ATX").get_all_components.length ≠ 41 := by decide

/-- C2 (amended): for every form factor, `get_all_components` returns
exactly 35 components (the dict groups contribute nothing). -/
theorem get_all_components_length_eq_35 (f : String) :
    (Mainboard.mk_board f).get_all_components.length = 35 := by
  have hg : (Mainboard.mk_board f).get_all_components
      = (Mainboard.mk_board "A").get_all_components := rfl
  rw [hg]
  decide

/-- C3 counterexample: the registry built with form factor "ATX" does not
own 41 components in total. -/
theorem all_owned_total_ne_41 :
    (Mainboard.mk_board "ATX").all_owned.length ≠ 41 := by decide

/-- C3 (amended): for every form factor the constructed registry owns
exactly 1 CPU socket, 1 chipset, 4 memory slots, 4 M.2 slots, 8 SATA
ports, 1 VRM, 8 fan headers, 2 pump headers, 3 addressable RGB headers,
2 traditional RGB headers, 1 debug system, 1 BIOS, 1 audio system,
1 network block, 2 Thunderbolt ports, 2 PCIe x16 slots, 1 PCIe x4 slot
and 2 PCIe x1 slots — a total of 45 components (the per-group counts of
the claim are right; their sum is 45, not 41). -/
theorem component_census (f : String) :
    ((Mainboard.mk_board f).all_owned.countP (fun c => c.component_type == "CPU Socket") = 1)
    ∧ ((Mainboard.mk_board f).all_owned.countP (fun c => c.component_type == "Chipset") = 1)
    ∧ ((Mainboard.mk_board f).all_owned.countP (fun c => c.component_type == "RAM Slot") = 4)
    ∧ ((Mainboard.mk_board f).all_owned.countP (fun c => c.component_type == "M.2 Slot") = 4)
    ∧ ((Mainboard.mk_board f).all_owned.countP (fun c => c.component_type == "SATA Port") = 8)
    ∧ ((Mainboard.mk_board f).all_owned.countP (fun c => c.component_type == "VRM") = 1)
    ∧ ((Mainboard.mk_board f).all_owned.countP (fun c => c.component_type == "Fan Header") = 8)
    ∧ ((Mainboard.mk_board f).all_owned.countP (fun c => c.component_type == "Pump Header") = 2)
    ∧ ((Mainboard.mk_board f).all_owned.countP (fun c => c.component_type == "ARGB Header") = 3)
    ∧ ((Mainboard.mk_board f).all_owned.countP (fun c => c.component_type == "RGB Header") = 2)
    ∧ ((Mainboard.mk_board f).all_owned.countP (fun c => c.component_type == "Debug System") = 1)
    ∧ ((Mainboard.mk_board f).all_owned.countP (fun c => c.component_type == "BIOS") = 1)
    ∧ ((Mainboard.mk_board f).all_owned.countP (fun c => c.component_type == "Audio") = 1)
    ∧ ((Mainboard.mk_board f).all_owned.countP (fun c => c.component_type == "Network") = 1)
    ∧ ((Mainboard.mk_board f).all_owned.countP (fun c => c.component_type == "Thunderbolt 4") = 2)
    ∧ ((Mainboard.mk_board f).all_owned.countP (fun c => c.component_type == "PCIe x16") = 2)
    ∧ ((Mainboard.mk_board f).all_owned.countP (fun c => c.component_type == "PCIe x4") = 1)
    ∧ ((Mainboard.mk_board f).all_owned.countP (fun c => c.component_type == "PCIe x1") = 2)
    ∧ (Mainboard.mk_board f).all_owned.length = 45 := by
  have ha : (Mainboard.mk_board f).all_owned
      = (Mainboard.mk_board "A").all_owned := rfl
  rw [ha]
  decide

/-- C4 counterexample: on the board built with form factor "ATX", the
mapping `verify_all_components` returns does not have 12 keys. -/
theorem verify_all_components_keys_ne_12 :
    (Mainboard.mk_board "ATX").verify_all_components.length ≠ 12 := by decide

/-- C4 (amended): for every form factor, `verify_all_components` maps each
traversed component's kind to its status with later traversal entries
overwriting earlier ones (each key holds the status of the LAST component
of that kind in `get_all_components` order); its key set equals the set of
distinct kinds among the components `get_all_components` returns, which
has exactly 13 elements — not 12, and not the 18 distinct kinds of the
full ownership, because the dict-group kinds never reach the mapping. -/
theorem verify_all_components_characterization (f : String) :
    ((Mainboard.mk_board f).verify_all_components.map Prod.fst =
      ["Audio", "BIOS", "Chipset", "CPU Socket", "Debug System", "Fan Header",
       "M.2 Slot", "RAM Slot", "Network", "Pump Header", "SATA Port",
       "Thunderbolt 4", "VRM"])
    ∧ (Mainboard.mk_board f).verify_all_components.length = 13
    ∧ (∀ k ∈ (Mainboard.mk_board f).verify_all_components.map Prod.fst,
        k ∈ (Mainboard.mk_board f).get_all_components.map MainboardComponent.component_type)
    ∧ (∀ k ∈ (Mainboard.mk_board f).get_all_components.map MainboardComponent.component_type,
        k ∈ (Mainboard.mk_board f).verify_all_components.map Prod.fst)
    ∧ (∀ k ∈ (Mainboard.mk_board f).get_all_components.map MainboardComponent.component_type,
        assocLookup (Mainboard.mk_board f).verify_all_components k =
          (((Mainboard.mk_board f).get_all_components.filter
              (fun c => c.component_type == k)).getLast?).map MainboardComponent.status) := by
  have hg : (Mainboard.mk_board f).get_all_components
      = (Mainboard.mk_board "A").get_all_components := rfl
  have hv : (Mainboard.mk_board f).verify_all_components
      = (Mainboard.mk_board "A").verify_all_components := rfl
  rw [hg, hv]
  decide

/-- C5: for every form factor, each telemetry-dependent diagnostic
operation fails with an explicit missing-attribute error (the undefined
data-source method it reaches first) and never returns a value. -/
theorem telemetry_ops_fail (f : String) :
    (Mainboard.mk_board f).monitor_temperatures
      = .error (.attributeError "get_cpu_temp")
    ∧ (Mainboard.mk_board f).manage_power_delivery
      = .error (.attributeError "calculate_total_power")
    ∧ (Mainboard.mk_board f).run_diagnostics
      = .error (.attributeError "get_cpu_temp") :=
  ⟨rfl, rfl, rfl⟩

/-- C6: immediately after construction with any form factor, every owned
component has status "operational", temperature 0 and power_draw 0. -/
theorem components_initial_state (f : String) :
    ∀ c ∈ (Mainboard.mk_board f).all_owned,
      c.status = "operational" ∧ c.temperature = 0 ∧ c.power_draw = 0 := by
  have ha : (Mainboard.mk_board f).all_owned
      = (Mainboard.mk_board "A").all_owned := rfl
  rw [ha]
  decide

/-- C6 witness: the CPU socket of a concrete board satisfies the initial
state property. -/
theorem components_initial_state_witness :
    (Mainboard.mk_board "E-ATX").cpu_socket.status = "operational"
    ∧ (Mainboard.mk_board "E-ATX").cpu_socket.temperature = 0
    ∧ (Mainboard.mk_board "E-ATX").cpu_socket.power_draw = 0 :=
  components_initial_state "E-ATX" (Mainboard.mk_board "E-ATX").cpu_socket
    (by decide)

/-- C7: construction is deterministic — two registries built with the same
form factor are structurally equal: same kinds, same spec tables, same
counts, and in fact equal as whole records. -/
theorem construction_deterministic (f : String) (r1 r2 : Mainboard)
    (h1 : r1 = Mainboard.mk_board f) (h2 : r2 = Mainboard.mk_board f) :
    r1.all_owned.map MainboardComponent.component_type
      = r2.all_owned.map MainboardComponent.component_type
    ∧ r1.all_owned.map MainboardComponent.specs
      = r2.all_owned.map MainboardComponent.specs
    ∧ r1.all_owned.length = r2.all_owned.length
    ∧ r1 = r2 := by
  subst h1; subst h2; exact ⟨rfl, rfl, rfl, rfl⟩

/-- C7 witness: instantiated at form factor "ATX". -/
theorem construction_deterministic_witness :
    (Mainboard.mk_board "ATX").all_owned.map MainboardComponent.component_type
      = (Mainboard.mk_board "ATX").all_owned.map MainboardComponent.component_type
    ∧ (Mainboard.mk_board "ATX").all_owned.map MainboardComponent.specs
      = (Mainboard.mk_board "ATX").all_owned.map MainboardComponent.specs
    ∧ (Mainboard.mk_board "ATX").all_owned.length
      = (Mainboard.mk_board "ATX").all_owned.length
    ∧ Mainboard.mk_board "ATX" = Mainboard.mk_board "ATX" :=
  construction_deterministic "ATX" (Mainboard.mk_board "ATX")
    (Mainboard.mk_board "ATX") rfl rfl

/-- C8: the form factor does not influence the topology — boards built
from any two form factors have equal component-bearing fields (bundled in
`Mainboard.topology`) and own identical component sets; only the stored
form_factor label differs. -/
theorem form_factor_does_not_affect_topology (f1 f2 : String) :
    (Mainboard.mk_board f1).topology = (Mainboard.mk_board f2).topology
    ∧ (Mainboard.mk_board f1).all_owned = (Mainboard.mk_board f2).all_owned
    ∧ (Mainboard.mk_board f1).form_factor = f1
    ∧ (Mainboard.mk_board f2).form_factor = f2 := by
  have t1 : (Mainboard.mk_board f1).topology
      = (Mainboard.mk_board "A").topology := rfl
  have t2 : (Mainboard.mk_board f2).topology
      = (Mainboard.mk_board "A").topology := rfl
  have a1 : (Mainboard.mk_board f1).all_owned
      = (Mainboard.mk_board "A").all_owned := rfl
  have a2 : (Mainboard.mk_board f2).all_owned
      = (Mainboard.mk_board "A").all_owned := rfl
  exact ⟨t1.trans t2.symm, a1.trans a2.symm, rfl, rfl⟩

/-- C9: the query operations are pure reads — running either of them in
state-passing form returns the Mainboard unchanged (hence every field of
every component and of the board itself is unchanged), and their values
agree with the pure functions. -/
theorem query_ops_preserve_state (m : Mainboard) :
    (Id.run (StateT.run Mainboard.get_all_components_run m)).2 = m
    ∧ (Id.run (StateT.run Mainboard.verify_all_components_run m)).2 = m
    ∧ (Id.run (StateT.run Mainboard.get_all_components_run m)).1
      = m.get_all_components
    ∧ (Id.run (StateT.run Mainboard.verify_all_components_run m)).1
      = m.verify_all_components := by
  refine ⟨?_, ?_, ?_, ?_⟩ <;>
    simp only [Mainboard.get_all_components_run,
      Mainboard.verify_all_components_run, StateT.run, Id.run, bind,
      StateT.bind, get, getThe, MonadStateOf.get, StateT.get, pure,
      StateT.pure]

/-- C10: `call` ignores its inputs argument — any two inputs, even of
different types, give the same result, namely `run_diagnostics()`. -/
theorem call_ignores_inputs {α β : Type} (m : Mainboard) (a : α) (b : β) :
    m.call a = m.call b ∧ m.call a = m.run_diagnostics :=
  ⟨rfl, rfl⟩

end MainboardTF
